import Mathlib

/-
  Verification of the SciRAG retrieval-augmented generation pipeline.

  The definitions below are a shallow embedding of the Python sources:
    - backend/app/services/pdf_service.py        (PDFService.chunk_text)
    - backend/app/services/guardrails_service.py (GuardrailsService)
    - backend/app/services/llm_service.py        (LLMService and providers)
    - backend/app/services/vectordb_service.py   (VectorDBService)
    - backend/app/agents/scirag_agent.py         (SciRAGAgent)
    - backend/app/api/routes/query.py            (query_papers route)

  Python strings are modelled as Lean String; Python lists as List; Python
  dicts preserving insertion order as association lists; Python sets of
  strings as deduplicated lists.  Python functions that may raise are
  modelled with Except.
-/

set_option maxRecDepth 2000

namespace SciRAG

/-- Python str.split() with no argument: split on runs of whitespace,
dropping empty pieces.  The accumulator holds the current word reversed. -/
def splitWsAux : List Char → List Char → List String
  | [], acc => if acc.isEmpty then [] else [String.mk acc.reverse]
  | c :: cs, acc =>
    if c.isWhitespace then
      if acc.isEmpty then splitWsAux cs [] else String.mk acc.reverse :: splitWsAux cs []
    else
      splitWsAux cs (c :: acc)

/-- Python text.split() on a string. -/
def pyWords (s : String) : List String :=
  splitWsAux s.data []

/-- Python str.strip(): remove leading and trailing whitespace. -/
def pyStrip (s : String) : String :=
  String.mk (((s.data.dropWhile Char.isWhitespace).reverse.dropWhile Char.isWhitespace).reverse)

/-- Python ' '.join(ws). -/
def joinWords : List String → String
  | [] => ""
  | [w] => w
  | w :: v :: ws => w ++ " " ++ joinWords (v :: ws)

/-- Python range(0, n, step) for step > 0: the indices 0, step, 2*step, ...
strictly below n.  range(0, n, step) has ceil(n / step) elements. -/
def pyRange (n step : Nat) : List Nat :=
  (List.range ((n + step - 1) / step)).map (· * step)

/-- PDFService defaults (chunk_size=1000, chunk_overlap=200, as in
PDFService.__init__ and config CHUNK_SIZE / CHUNK_OVERLAP). -/
def defaultChunkSize : Nat := 1000

/-- PDFService default overlap. -/
def defaultOverlap : Nat := 200

/-- PDFService.chunk_text.  `chunk_size or self.chunk_size` treats a falsy
argument (Python None or 0) as absent, so 0 selects the instance default.
Python computes step = chunk_size - overlap as an integer: range raises
ValueError on a zero step, while a negative step makes range empty so the
loop body never runs and the function returns the empty chunk list. -/
def chunk_text (text : String) (chunk_size overlap : Nat) : Except String (List String) :=
  let cs := if chunk_size = 0 then defaultChunkSize else chunk_size
  let ov := if overlap = 0 then defaultOverlap else overlap
  if cs = ov then
    Except.error "range() arg 3 must not be zero"
  else if cs < ov then
    Except.ok []
  else
    let words := pyWords text
    Except.ok ((pyRange words.length (cs - ov)).filterMap (fun i =>
      let chunk := joinWords ((words.drop i).take cs)
      if (pyStrip chunk).length > 100 then some chunk else none))

/-- A 23-word example text (each word 4 characters). -/
def exText : String :=
  joinWords (List.replicate 23 "word")

/-- A 60-word text used to exercise the substance filter. -/
def wText : String :=
  joinWords (List.replicate 60 "abc")

/-- A 2500-word text for the concrete chunking scenario. -/
def bigText : String :=
  joinWords (List.replicate 2500 "w")

end SciRAG

namespace SciRAG

/-- C3: the claim states that every call with overlap ≥ chunk_size fails
fast with a configuration error and never silently returns a chunk list.
At chunk_size=2, overlap=3 (overlap ≥ chunk_size) the code silently
returns the empty chunk list instead of failing. -/
theorem c3_counterexample :
    2 ≤ 3 ∧ chunk_text exText 2 3 = Except.ok [] := by
  constructor
  · decide
  · rfl

/-- C3 (amended): for overlap equal to chunk_size the chunker raises an
error (Python range rejects a zero step), but for overlap strictly greater
than chunk_size it silently returns an empty chunk list (negative step,
loop never runs). -/
theorem c3_amended_behavior (text : String) (cs ov : Nat)
    (h1 : 0 < cs) (h2 : cs ≤ ov) :
    (cs = ov → ∃ msg, chunk_text text cs ov = Except.error msg) ∧
    (cs < ov → chunk_text text cs ov = Except.ok []) := by
  have hcs : ¬ cs = 0 := Nat.pos_iff_ne_zero.mp h1
  have hov : ¬ ov = 0 := Nat.pos_iff_ne_zero.mp (Nat.lt_of_lt_of_le h1 h2)
  constructor
  · intro heq
    refine ⟨"range() arg 3 must not be zero", ?_⟩
    simp [chunk_text, hcs, hov, heq]
  · intro hlt
    have hne : ¬ cs = ov := Nat.ne_of_lt hlt
    simp [chunk_text, hcs, hov, hne, hlt]

/-- C3 (amended) witness at concrete inputs: chunk_size=2 with overlap=2
errors, and chunk_size=2 with overlap=3 silently yields []. -/
theorem c3_amended_witness :
    (∃ msg, chunk_text exText 2 2 = Except.error msg) ∧
    chunk_text exText 2 3 = Except.ok [] :=
  ⟨(c3_amended_behavior exText 2 2 (by decide) (by decide)).1 rfl,
   (c3_amended_behavior exText 2 3 (by decide) (by decide)).2 (by decide)⟩

/-- C6: every chunk returned by chunk_text has stripped length at least
100 characters (the code keeps only chunks whose stripped length is
strictly greater than 100); shorter chunks are dropped from the output. -/
theorem c6_substance_filter (text : String) (cs ov : Nat) (chunks : List String)
    (h : chunk_text text cs ov = Except.ok chunks) :
    ∀ c ∈ chunks, 100 ≤ (pyStrip c).length := by
  intro c hc
  unfold chunk_text at h
  set cs1 := if cs = 0 then defaultChunkSize else cs with hcs1
  set ov1 := if ov = 0 then defaultOverlap else ov with hov1
  by_cases he : cs1 = ov1
  · simp [he] at h
  · by_cases hlt : cs1 < ov1
    · simp [he, hlt] at h
      subst h
      simp at hc
    · simp [he, hlt] at h
      subst h
      rcases List.mem_filterMap.mp hc with ⟨i, _, hi⟩
      by_cases hg : (pyStrip (joinWords (((pyWords text).drop i).take cs1))).length > 100
      · simp [hg] at hi
        subst hi
        exact Nat.le_of_lt hg
      · simp [hg] at hi

/-- C6 witness: chunking a 60-word text with chunk_size=50, overlap=10
produces a single surviving chunk, and it is at least 100 characters long
after stripping. -/
theorem c6_substance_filter_witness :
    100 ≤ (pyStrip (joinWords (List.replicate 50 "abc"))).length :=
  c6_substance_filter wText 50 10 [joinWords (List.replicate 50 "abc")] (by rfl)
    (joinWords (List.replicate 50 "abc")) (List.mem_singleton.mpr rfl)

/-- The character pattern of n+1 copies of "w" joined by single spaces. -/
def wPattern : Nat → List Char
  | 0 => ['w']
  | n + 1 => 'w' :: ' ' :: wPattern n

theorem joinWords_replicate_data :
    ∀ n, (joinWords (List.replicate (n + 1) "w")).data = wPattern n := by
  intro n
  induction n with
  | zero => rfl
  | succ n ih =>
    rw [List.replicate_succ, List.replicate_succ]
    show ("w" ++ " " ++ joinWords ("w" :: List.replicate n "w")).data = _
    rw [String.data_append, String.data_append, ← List.replicate_succ, ih]
    rfl

theorem joinWords_replicate (n : Nat) :
    joinWords (List.replicate (n + 1) "w") = String.mk (wPattern n) := by
  apply String.ext
  exact joinWords_replicate_data n

theorem splitWsAux_wPattern : ∀ n, splitWsAux (wPattern n) [] = List.replicate (n + 1) "w" := by
  intro n
  induction n with
  | zero => rfl
  | succ n ih =>
    have h1 : ('w').isWhitespace = false := by decide
    have h2 : (' ').isWhitespace = true := by decide
    show splitWsAux ('w' :: ' ' :: wPattern n) [] = _
    rw [splitWsAux, h1]
    simp only [Bool.false_eq_true, if_false]
    rw [splitWsAux, h2]
    simp only [if_true, List.isEmpty_cons, if_false, Bool.false_eq_true]
    rw [ih, List.replicate_succ]
    rfl

theorem wPattern_ne_nil (n : Nat) : wPattern n ≠ [] := by
  cases n <;> simp [wPattern]

theorem wPattern_append : ∀ n, wPattern n ++ [' ', 'w'] = 'w' :: ' ' :: wPattern n := by
  intro n
  induction n with
  | zero => rfl
  | succ n ih =>
    show ('w' :: ' ' :: wPattern n) ++ [' ', 'w'] = _
    rw [List.cons_append, List.cons_append, ih]
    rfl

theorem wPattern_reverse : ∀ n, (wPattern n).reverse = wPattern n := by
  intro n
  induction n with
  | zero => rfl
  | succ n ih =>
    show ('w' :: ' ' :: wPattern n).reverse = _
    rw [List.reverse_cons, List.reverse_cons, ih, List.append_assoc]
    exact wPattern_append n

theorem wPattern_length : ∀ n, (wPattern n).length = 2 * n + 1 := by
  intro n
  induction n with
  | zero => rfl
  | succ n ih =>
    show ('w' :: ' ' :: wPattern n).length = _
    simp [ih]
    omega

theorem wPattern_dropWhile (n : Nat) :
    (wPattern n).dropWhile Char.isWhitespace = wPattern n := by
  cases n <;> simp [wPattern, List.dropWhile]

theorem pyStrip_wPattern (n : Nat) :
    pyStrip (String.mk (wPattern n)) = String.mk (wPattern n) := by
  show String.mk (((((wPattern n).dropWhile Char.isWhitespace).reverse.dropWhile
      Char.isWhitespace).reverse)) = _
  rw [wPattern_dropWhile, wPattern_reverse, wPattern_dropWhile, wPattern_reverse]

theorem pyStrip_joinWords_replicate (n : Nat) :
    (pyStrip (joinWords (List.replicate (n + 1) "w"))).length = 2 * n + 1 := by
  rw [joinWords_replicate, pyStrip_wPattern]
  show (wPattern n).length = _
  exact wPattern_length n

theorem drop_replicate_eq {α : Type} (a : α) :
    ∀ (i n : Nat), (List.replicate n a).drop i = List.replicate (n - i) a := by
  intro i
  induction i with
  | zero => intro n; simp
  | succ i ih =>
    intro n
    cases n with
    | zero => simp
    | succ n =>
      rw [List.replicate_succ, List.drop_succ_cons, ih, Nat.succ_sub_succ]

theorem take_replicate_eq {α : Type} (a : α) :
    ∀ (i n : Nat), (List.replicate n a).take i = List.replicate (min i n) a := by
  intro i
  induction i with
  | zero => intro n; simp
  | succ i ih =>
    intro n
    cases n with
    | zero => simp
    | succ n =>
      rw [List.replicate_succ, List.take_succ_cons, ih, Nat.succ_min_succ,
        List.replicate_succ]

theorem pyWords_bigText : pyWords bigText = List.replicate 2500 "w" := by
  have h : (2499 : Nat) + 1 = 2500 := by norm_num
  show splitWsAux (joinWords (List.replicate 2500 "w")).data [] = List.replicate 2500 "w"
  rw [← h, joinWords_replicate_data, splitWsAux_wPattern]

theorem chunk_text_main (text : String) (cs ov : Nat)
    (h0 : cs ≠ 0) (h1 : ov ≠ 0) (h2 : ov < cs) :
    chunk_text text cs ov =
      Except.ok ((pyRange (pyWords text).length (cs - ov)).filterMap (fun i =>
        let chunk := joinWords (((pyWords text).drop i).take cs)
        if (pyStrip chunk).length > 100 then some chunk else none)) := by
  have hne : ¬ cs = ov := Nat.ne_of_gt h2
  have hnlt : ¬ cs < ov := Nat.not_lt_of_gt h2
  simp [chunk_text, h0, h1, hne, hnlt]

theorem pyStrip_join_1000 :
    (pyStrip (joinWords (List.replicate 1000 "w"))).length = 1999 := by
  have h : (999 : Nat) + 1 = 1000 := by norm_num
  rw [← h, pyStrip_joinWords_replicate]

theorem pyStrip_join_900 :
    (pyStrip (joinWords (List.replicate 900 "w"))).length = 1799 := by
  have h : (899 : Nat) + 1 = 900 := by norm_num
  rw [← h, pyStrip_joinWords_replicate]

theorem pyStrip_join_100 :
    (pyStrip (joinWords (List.replicate 100 "w"))).length = 199 := by
  have h : (99 : Nat) + 1 = 100 := by norm_num
  rw [← h, pyStrip_joinWords_replicate]

/-- C7: chunking a 2500-word text with chunk_size=1000 and overlap=200
produces exactly the four chunks whose source windows start at word
offsets 0, 800, 1600 and 2400 (the offsets range(0, 2500, 800)); the last
window covers words 2400..2500, i.e. 100 words, and survives the filter. -/
theorem c7_concrete_chunking :
    chunk_text bigText 1000 200 =
      Except.ok [joinWords (((pyWords bigText).drop 0).take 1000),
                 joinWords (((pyWords bigText).drop 800).take 1000),
                 joinWords (((pyWords bigText).drop 1600).take 1000),
                 joinWords (((pyWords bigText).drop 2400).take 1000)] ∧
    pyRange (pyWords bigText).length 800 = [0, 800, 1600, 2400] ∧
    ((pyWords bigText).drop 2400).length = 100 := by
  have hw := pyWords_bigText
  have hrange : pyRange 2500 800 = [0, 800, 1600, 2400] := by
    show (List.range ((2500 + 800 - 1) / 800)).map (· * 800) = _
    norm_num
    rfl
  refine ⟨?_, ?_, ?_⟩
  · rw [chunk_text_main bigText 1000 200 (by norm_num) (by norm_num) (by norm_num)]
    simp only [hw, List.length_replicate, drop_replicate_eq, take_replicate_eq]
    norm_num [hrange]
    simp only [List.filterMap_cons, List.filterMap_nil]
    norm_num [pyStrip_join_1000, pyStrip_join_900, pyStrip_join_100]
  · rw [hw]
    simp only [List.length_replicate]
    exact hrange
  · rw [hw, drop_replicate_eq]
    norm_num

end SciRAG

namespace SciRAG

/-- Does the needle occur contiguously in the haystack, starting at some
suffix position? -/
def containsSubAux (needle : List Char) : List Char → Bool
  | [] => needle.isEmpty
  | h :: t => needle.isPrefixOf (h :: t) || containsSubAux needle t

/-- Substring containment, Python `needle in haystack`. -/
def containsSub (needle haystack : String) : Bool :=
  containsSubAux needle.data haystack.data

/-- GuardrailsService._contains_harmful_content keyword list. -/
def harmful_keywords : List String :=
  ["weapon", "bomb", "attack", "kill", "harm", "illegal",
   "hack", "exploit", "steal", "fraud", "poison", "dangerous"]

/-- GuardrailsService._is_off_topic research keyword list. -/
def research_keywords : List String :=
  ["paper", "research", "study", "finding", "method", "result",
   "analysis", "data", "experiment", "hypothesis", "conclusion",
   "author", "cite", "reference", "abstract", "introduction",
   "discussion", "figure", "table", "section", "algorithm",
   "model", "approach", "technique", "evaluation", "compare"]

/-- GuardrailsService._is_off_topic off-topic pattern list. -/
def off_topic_patterns : List String :=
  ["weather", "joke", "recipe", "game", "movie", "sports",
   "write code", "create program", "build app", "homework",
   "translate", "what is the time", "news", "stock", "price"]

/-- GuardrailsService._is_jailbreak_attempt pattern list. -/
def jailbreak_patterns : List String :=
  ["ignore previous instructions", "ignore all instructions", "disregard",
   "forget everything", "act as", "pretend you are", "roleplay as",
   "simulate", "you are now", "new instructions", "system:", "override"]

/-- GuardrailsService stop-word set used by _is_well_grounded. -/
def stop_words : List String :=
  ["the", "a", "an", "and", "or", "but", "in", "on", "at", "to",
   "for", "of", "with", "is", "are", "was", "were", "be", "been",
   "being", "have", "has", "had", "do", "does", "did", "will",
   "would", "could", "should", "may", "might", "must", "can",
   "this", "that", "these", "those", "i", "you", "he", "she",
   "it", "we", "they", "what", "which", "who", "when", "where",
   "why", "how"]

/-- Python str.lower(), character by character (ASCII case mapping). -/
def pyLower (s : String) : String :=
  String.mk (s.data.map Char.toLower)

/-- GuardrailsService._contains_harmful_content. -/
def contains_harmful_content (text : String) : Bool :=
  harmful_keywords.any (fun kw => containsSub kw (pyLower text))

/-- GuardrailsService._is_off_topic. -/
def is_off_topic (text : String) : Bool :=
  let tl := pyLower text
  if off_topic_patterns.any (fun p => containsSub p tl) then
    true
  else
    let words := pyWords tl
    if words.length < 3 then
      !(research_keywords.any (fun kw => containsSub kw tl))
    else if words.length ≥ 5 then
      !(research_keywords.any (fun kw => containsSub kw tl))
    else
      false

/-- GuardrailsService._is_jailbreak_attempt. -/
def is_jailbreak_attempt (text : String) : Bool :=
  jailbreak_patterns.any (fun p => containsSub p (pyLower text))

/-- GuardrailsService.check_input: returns the violation kind, or none when
the input is safe.  The checks run in the fixed order harmful, off-topic,
jailbreak. -/
def check_input (user_input : String) : Option String :=
  if contains_harmful_content user_input then some "harmful"
  else if is_off_topic user_input then some "off_topic"
  else if is_jailbreak_attempt user_input then some "jailbreak"
  else none

/-- Python regex word character for the word-boundary assertion. -/
def isWordChar (c : Char) : Bool :=
  c.isAlphanum || c = '_'

/-- Word boundary between a last consumed character and the remaining
input, as tested by the final backslash-b of the numeric-token regex. -/
def atBoundary (prev : Char) (rest : List Char) : Bool :=
  match rest with
  | [] => isWordChar prev
  | c :: _ => isWordChar prev != isWordChar c

/-- Optional percent sign then the final word boundary, greedy with
backtracking; returns the number of characters consumed. -/
def tryPct (prev : Char) (rest : List Char) : Option Nat :=
  match rest with
  | '%' :: rest2 =>
    if atBoundary '%' rest2 then some 1
    else if atBoundary prev rest then some 0
    else none
  | _ => if atBoundary prev rest then some 0 else none

/-- Greedy digit-star then optional percent then boundary, with
backtracking from the longest digit run downwards. -/
def tryStar (prev : Char) (rest : List Char) : Option Nat :=
  match rest with
  | c :: rest2 =>
    if c.isDigit then
      match tryStar c rest2 with
      | some n => some (n + 1)
      | none => tryPct prev (c :: rest2)
    else tryPct prev (c :: rest2)
  | [] => tryPct prev []

/-- Optional decimal point then digit-star then optional percent then
boundary, preferring to consume the point. -/
def tryDot (prev : Char) (rest : List Char) : Option Nat :=
  match rest with
  | '.' :: rest2 =>
    (match tryStar '.' rest2 with
     | some n => some (n + 1)
     | none => tryStar prev ('.' :: rest2))
  | _ => tryStar prev rest

/-- The rest of the digit-plus run (greedy) followed by the tail of the
numeric-token regex, with backtracking. -/
def tryPlusMore (prev : Char) (rest : List Char) : Option Nat :=
  match rest with
  | c :: rest2 =>
    if c.isDigit then
      match tryPlusMore c rest2 with
      | some n => some (n + 1)
      | none => tryDot prev (c :: rest2)
    else tryDot prev (c :: rest2)
  | [] => tryDot prev []

/-- re.findall of the numeric-token pattern (word boundary, one or more
digits, optional point, optional digits, optional percent, word
boundary): left-to-right non-overlapping scan.  `prev` is the character
just before the scan position (none at the start of the string); the fuel
argument bounds the number of scan steps (each step consumes at least one
character, so the length of the input is always enough fuel). -/
def findallAux : Nat → Option Char → List Char → List String
  | 0, _, _ => []
  | _ + 1, _, [] => []
  | fuel + 1, prev, c :: rest =>
    let boundOk := match prev with
      | none => true
      | some p => !(isWordChar p)
    if c.isDigit && boundOk then
      match tryPlusMore c rest with
      | some n =>
        String.mk (c :: rest.take n) ::
          findallAux fuel (some ((c :: rest.take n).getLastD c)) (rest.drop n)
      | none => findallAux fuel (some c) rest
    else
      findallAux fuel (some c) rest

/-- All numeric tokens of a string, in scan order (re.findall). -/
def pyFindallNums (s : String) : List String :=
  findallAux s.data.length none s.data

/-- GuardrailsService._contains_hallucination: with nonempty context,
flags when more than 3 unique numeric tokens of the response are absent
from the lowercased space-joined context. -/
def contains_hallucination (response : String) (context : List String) : Bool :=
  if context.isEmpty then
    false
  else
    let combined := pyLower (joinWords context)
    let nr := pyFindallNums response
    let nc := pyFindallNums combined
    decide ((nr.filter (fun t => !(nc.contains t))).dedup.length > 3)

/-- GuardrailsService._is_well_grounded: word-overlap heuristic; note that
the short-response branch tests the number of DISTINCT lowercased words of
the response (len of a Python set), not the total word count. -/
def is_well_grounded (response : String) (context : List String) : Bool :=
  if context.isEmpty then
    false
  else
    let combined := pyLower (joinWords context)
    let response_words := (pyWords (pyLower response)).dedup
    let context_words := (pyWords combined).dedup
    let common_words := response_words.filter (fun w => context_words.contains w)
    let meaningful := common_words.filter (fun w => !(stop_words.contains w))
    if meaningful.length > 10 then true
    else if response_words.length < 50 && meaningful.length > 5 then true
    else false

/-- GuardrailsService.check_output: hallucination check first, then
grounding; returns the violation kind or none when safe. -/
def check_output (response : String) (retrieved_context : List String)
    (user_question : String) : Option String :=
  if contains_hallucination response retrieved_context then some "hallucination"
  else if !(is_well_grounded response retrieved_context) then some "not_grounded"
  else none

/-- C4: the claim quantifies over EVERY list of context chunks, but for the
empty context the code returns no hallucination verdict regardless of the
novel numeric tokens: response "1 2 3 4" has 4 unique numeric tokens absent
from the (empty) concatenated context, yet the verdict is not hallucination. -/
theorem c4_counterexample :
    ((pyFindallNums "1 2 3 4").filter
        (fun t => !((pyFindallNums (pyLower (joinWords ([] : List String)))).contains t))).dedup.length > 3
    ∧ check_output "1 2 3 4" [] "q" ≠ some "hallucination" := by
  constructor
  · decide
  · decide

/-- C4 (amended): for every response and every NONEMPTY retrieved context,
check_output returns the hallucination verdict exactly when more than 3
unique numeric tokens occur in the response but not in the lowercased
space-joined context; with empty context no hallucination verdict is
ever returned. -/
theorem c4_amended_hallucination (response question : String) (context : List String)
    (h : context ≠ []) :
    check_output response context question = some "hallucination" ↔
      ((pyFindallNums response).filter
        (fun t => !((pyFindallNums (pyLower (joinWords context))).contains t))).dedup.length > 3 := by
  have hne : context.isEmpty = false := by
    cases context with
    | nil => exact absurd rfl h
    | cons a l => rfl
  unfold check_output contains_hallucination
  rw [hne]
  by_cases hc : ((pyFindallNums response).filter
      (fun t => !((pyFindallNums (pyLower (joinWords context))).contains t))).dedup.length > 3
  · simp [hc]
  · simp only [Bool.false_eq_true, if_false, hc, decide_eq_true_eq, iff_false]
    by_cases hg : is_well_grounded response context
    · simp [hg]
    · simp [hg]

/-- C4 (amended) witness: with nonempty context ["alpha"], the response
"1 2 3 4" carries 4 novel numeric tokens and is flagged as hallucination. -/
theorem c4_amended_witness :
    check_output "1 2 3 4" ["alpha"] "q" = some "hallucination" :=
  (c4_amended_hallucination "1 2 3 4" "q" ["alpha"] (by decide)).mpr (by decide)

/-- C5: the claim states the short-response branch tests fewer than 50
TOTAL words; the code tests the number of distinct lowercased words.  A
54-word response with only 6 distinct words and overlap 6 (≤ 10, > 5) is
judged grounded by the code (verdict none), while the claim as stated
demands not_grounded (overlap ≤ 10 and total word count ≥ 50). -/
theorem c5_counterexample :
    check_output (joinWords (List.replicate 9 "alpha beta gamma delta epsilon zeta"))
        ["alpha beta gamma delta epsilon zeta"] "q" = none
    ∧ ((pyWords (pyLower (joinWords (List.replicate 9 "alpha beta gamma delta epsilon zeta")))).dedup.filter
        (fun w => ((pyWords (pyLower (joinWords ["alpha beta gamma delta epsilon zeta"]))).contains w)
          && !(stop_words.contains w))).length ≤ 10
    ∧ 50 ≤ (pyWords (joinWords (List.replicate 9 "alpha beta gamma delta epsilon zeta"))).length := by
  refine ⟨by decide, by decide, by decide⟩

/-- C5 (amended): for every response and context passing the hallucination
check, check_output returns none (grounded) exactly when the context is
nonempty and the stop-word-filtered overlap between the response's
distinct lowercased words and the context's distinct words exceeds 10, or
the response has fewer than 50 DISTINCT lowercased words and that overlap
exceeds 5; otherwise the verdict is not_grounded. -/
theorem c5_amended_grounding (response question : String) (context : List String)
    (h : contains_hallucination response context = false) :
    check_output response context question = none ↔
      (context ≠ [] ∧
        (((((pyWords (pyLower response)).dedup.filter
            (fun w => (pyWords (pyLower (joinWords context))).dedup.contains w)).filter
            (fun w => !(stop_words.contains w))).length > 10) ∨
         ((pyWords (pyLower response)).dedup.length < 50 ∧
          ((((pyWords (pyLower response)).dedup.filter
            (fun w => (pyWords (pyLower (joinWords context))).dedup.contains w)).filter
            (fun w => !(stop_words.contains w))).length > 5)))) := by
  have hmain : check_output response context question = none ↔
      is_well_grounded response context = true := by
    unfold check_output
    rw [h]
    simp only [Bool.false_eq_true, if_false]
    by_cases hg : is_well_grounded response context
    · simp [hg]
    · simp [hg]
  rw [hmain]
  unfold is_well_grounded
  cases context with
  | nil => simp
  | cons a l =>
    simp only [List.isEmpty_cons, Bool.false_eq_true, if_false, ne_eq, reduceCtorEq,
      not_false_eq_true, true_and]
    by_cases h10 : ((((pyWords (pyLower response)).dedup.filter
        (fun w => (pyWords (pyLower (joinWords (a :: l)))).dedup.contains w)).filter
        (fun w => !(stop_words.contains w))).length > 10)
    · simp [h10]
    · simp only [h10, if_false, or_false, false_or]
      by_cases h50 : (pyWords (pyLower response)).dedup.length < 50
      · simp [h50]
      · simp [h50]

/-- C5 (amended) witness: a 6-distinct-word response fully contained in the
context has overlap 6 (> 5) and fewer than 50 distinct words, so it is
judged grounded (none). -/
theorem c5_amended_witness :
    check_output "alpha beta gamma delta epsilon zeta"
        ["alpha beta gamma delta epsilon zeta"] "q" = none :=
  (c5_amended_grounding "alpha beta gamma delta epsilon zeta" "q"
      ["alpha beta gamma delta epsilon zeta"] (by decide)).mpr (by decide)

end SciRAG

namespace SciRAG

/-- The concrete provider variants of llm_service.py. -/
inductive ProviderKind
  | claude
  | openai
  | deepseek
  | gemini
deriving DecidableEq, Repr

/-- get_default_model of each LLMProvider subclass. -/
def get_default_model : ProviderKind → String
  | ProviderKind.claude => "claude-sonnet-4-20250514"
  | ProviderKind.openai => "gpt-4o"
  | ProviderKind.deepseek => "deepseek-chat"
  | ProviderKind.gemini => "gemini-1.5-pro"

/-- An instantiated LLM provider (LLMProvider.__init__ stores the api key
and the model name). -/
structure LLMProvider where
  kind : ProviderKind
  api_key : String
  model : String
deriving DecidableEq, Repr

/-- LLMProvider.__init__: `self.model = model or self.get_default_model()`;
a missing model, like a falsy (empty) one, selects the provider default. -/
def mkProvider (kind : ProviderKind) (api_key : String) (model : Option String) : LLMProvider :=
  { kind := kind,
    api_key := api_key,
    model := match model with
      | some m => if m = "" then get_default_model kind else m
      | none => get_default_model kind }

/-- LLMService.PROVIDERS: the name-to-class dict, in insertion order. -/
def PROVIDERS : List (String × ProviderKind) :=
  [("claude", ProviderKind.claude), ("openai", ProviderKind.openai),
   ("deepseek", ProviderKind.deepseek), ("gemini", ProviderKind.gemini)]

/-- LLMService.create_provider: unknown names raise ValueError
(Unsupported provider); known names instantiate the mapped class. -/
def create_provider (provider_name api_key : String) (model : Option String) :
    Except String LLMProvider :=
  match PROVIDERS.lookup provider_name with
  | none =>
    Except.error ("Unsupported provider: " ++ provider_name ++ ". Supported providers: " ++
      String.intercalate ", " (PROVIDERS.map Prod.fst))
  | some kind => Except.ok (mkProvider kind api_key model)

/-- The provider-name enumeration surface (PROVIDERS.keys(), as used for
the validation message of create_provider), paired with the number of
provider instantiations performed to produce it: listing the dict keys
constructs no provider, so that count is zero. -/
def supported_provider_names : List String × Nat :=
  (PROVIDERS.map Prod.fst, 0)

/-- LLMService.get_supported_providers: maps each name to the default
model of its class, instantiating one provider per entry (with a dummy
api key) to obtain it; the second component counts those instantiations. -/
def get_supported_providers : List (String × String) × Nat :=
  (PROVIDERS.map (fun p => (p.1, (mkProvider p.2 "dummy" none).model)), PROVIDERS.length)

end SciRAG

namespace SciRAG

/-- C2: create_provider returns an instance of the provider mapped to each
supported name and fails with the unsupported-provider error exactly for
names outside the supported set; the supported names are enumerable as the
dict keys with zero provider instantiations. -/
theorem c2_provider_factory (name api_key : String) (model : Option String) :
    (name ∈ supported_provider_names.1 →
      ∃ kind, PROVIDERS.lookup name = some kind ∧
        create_provider name api_key model = Except.ok (mkProvider kind api_key model)) ∧
    (name ∉ supported_provider_names.1 →
      create_provider name api_key model =
        Except.error ("Unsupported provider: " ++ name ++ ". Supported providers: " ++
          String.intercalate ", " (PROVIDERS.map Prod.fst))) ∧
    supported_provider_names = (["claude", "openai", "deepseek", "gemini"], 0) := by
  refine ⟨?_, ?_, rfl⟩
  · intro hmem
    simp only [supported_provider_names, PROVIDERS, List.map, List.mem_cons,
      List.not_mem_nil, or_false] at hmem
    rcases hmem with h | h | h | h <;> subst h <;> exact ⟨_, rfl, rfl⟩
  · intro hmem
    simp only [supported_provider_names, PROVIDERS, List.map, List.mem_cons,
      List.not_mem_nil, or_false, not_or] at hmem
    obtain ⟨h1, h2, h3, h4⟩ := hmem
    have e1 : (name == "claude") = false := beq_eq_false_iff_ne.mpr h1
    have e2 : (name == "openai") = false := beq_eq_false_iff_ne.mpr h2
    have e3 : (name == "deepseek") = false := beq_eq_false_iff_ne.mpr h3
    have e4 : (name == "gemini") = false := beq_eq_false_iff_ne.mpr h4
    simp [create_provider, PROVIDERS, List.lookup, e1, e2, e3, e4]

/-- C2 witness: the supported name gemini resolves to the GeminiProvider
instance, and the unknown name nope fails with the unsupported-provider
error. -/
theorem c2_provider_factory_witness :
    (∃ kind, PROVIDERS.lookup "gemini" = some kind ∧
      create_provider "gemini" "k" none = Except.ok (mkProvider kind "k" none)) ∧
    create_provider "nope" "k" none =
      Except.error ("Unsupported provider: " ++ "nope" ++ ". Supported providers: " ++
        String.intercalate ", " (PROVIDERS.map Prod.fst)) :=
  ⟨(c2_provider_factory "gemini" "k" none).1 (by decide),
   (c2_provider_factory "nope" "k" none).2.1 (by decide)⟩

end SciRAG

namespace SciRAG

/-- Document metadata, as computed by ArxivService.get_paper_metadata. -/
structure PaperMeta where
  paper_id : String
  title : String
  authors : List String
  published : String
  url : String
  pdf_url : String
  summary : String
  categories : List String
deriving DecidableEq, Repr

/-- Per-chunk metadata attached by SciRAGAgent.process_paper. -/
structure ChunkMeta where
  paper_id : String
  title : String
  chunk_index : Nat
  authors : String
deriving DecidableEq, Repr

/-- One indexed record of the vector store (id, document text, metadata). -/
structure StoreRecord where
  id : String
  document : String
  metadata : ChunkMeta
deriving DecidableEq, Repr

/-- Modelled from the spec: the vector backend behind
VectorDBService.add_documents is the external chromadb library (not part
of this repository); per the spec contract, adding with a pre-existing id
overwrites the stored record rather than duplicating it (upsert
semantics), and a fresh id appends. -/
def upsertOne (store : List StoreRecord) (r : StoreRecord) : List StoreRecord :=
  if store.any (fun x => x.id = r.id) then
    store.map (fun x => if x.id = r.id then r else x)
  else
    store ++ [r]

/-- The records assembled from parallel documents/metadatas/ids lists. -/
def recordsOf (documents : List String) (metadatas : List ChunkMeta)
    (ids : List String) : List StoreRecord :=
  (ids.zip (documents.zip metadatas)).map (fun p =>
    { id := p.1, document := p.2.1, metadata := p.2.2 })

/-- VectorDBService.add_documents on an initialized collection. -/
def add_documents (store : List StoreRecord) (documents : List String)
    (metadatas : List ChunkMeta) (ids : List String) : List StoreRecord :=
  (recordsOf documents metadatas ids).foldl upsertOne store

/-- The ids of the records currently in the store. -/
def storeIds (store : List StoreRecord) : List String :=
  store.map (fun r => r.id)

/-- Ordered-dict insertion keyed by document id (overwrite on re-insert),
as used for the process-wide papers_metadata registry. -/
def dictInsert (d : List (String × PaperMeta)) (k : String) (v : PaperMeta) :
    List (String × PaperMeta) :=
  if d.any (fun p => p.1 = k) then
    d.map (fun p => if p.1 = k then (k, v) else p)
  else
    d ++ [(k, v)]

/-- Ordered-dict lookup. -/
def dictLookup (d : List (String × PaperMeta)) (k : String) : Option PaperMeta :=
  (d.find? (fun p => p.1 = k)).map Prod.snd

/-- The agent state: the vector store contents and the papers_metadata
registry. -/
structure AgentState where
  store : List StoreRecord
  papers_metadata : List (String × PaperMeta)

/-- One paper to ingest, together with the outcomes of the external
collaborators it meets during ingestion: whether download_pdf returns
normally, and the text extract_text produces (empty on extraction
failure). -/
structure Paper where
  meta : PaperMeta
  download_ok : Bool
  extracted_text : String

/-- The chunks PDFService.process_pdf derives (chunk_text with the
instance defaults); with the default sizes the step is positive, so the
error branch cannot occur. -/
def chunksOfDefault (text : String) : List String :=
  match chunk_text text 0 0 with
  | Except.ok chunks => chunks
  | Except.error _ => []

/-- PDFService.process_pdf: empty extracted text means failure (success
false); otherwise success with the derived chunks. -/
def process_pdf (text : String) : Bool × List String :=
  if text = "" then (false, [])
  else (true, chunksOfDefault text)

/-- The deterministic chunk ids paper_id_chunk_i for i below n. -/
def chunkIds (paper_id : String) (n : Nat) : List String :=
  (List.range n).map (fun i => paper_id ++ "_chunk_" ++ toString i)

/-- The per-chunk metadata rows (authors truncated to the first 3 and
joined for display). -/
def chunkMetas (meta : PaperMeta) (n : Nat) : List ChunkMeta :=
  (List.range n).map (fun i =>
    { paper_id := meta.paper_id, title := meta.title, chunk_index := i,
      authors := String.intercalate ", " (meta.authors.take 3) })

/-- SciRAGAgent.process_paper: download, extract and chunk, record the
metadata, then index; any collaborator exception or an unsuccessful
process_pdf yields false with the state unchanged up to that point. -/
def process_paper (st : AgentState) (p : Paper) : AgentState × Bool :=
  if p.download_ok = false then
    (st, false)
  else
    let r := process_pdf p.extracted_text
    if r.1 = false then
      (st, false)
    else
      let chunks := r.2
      let paper_id := p.meta.paper_id
      let registry1 := dictInsert st.papers_metadata paper_id p.meta
      let ids := chunkIds paper_id chunks.length
      let metadatas := chunkMetas p.meta chunks.length
      let store1 := add_documents st.store chunks metadatas ids
      ({ store := store1, papers_metadata := registry1 }, true)

/-- The batch summary dict of SciRAGAgent.process_papers. -/
structure BatchStats where
  total : Nat
  successful : Nat
  failed : Nat
deriving DecidableEq, Repr

/-- One iteration of the process_papers loop: run process_paper on the
current state and bump the success or failure counter. -/
def batchStep (acc : AgentState × Nat × Nat) (p : Paper) : AgentState × Nat × Nat :=
  let r := process_paper acc.1 p
  if r.2 then (r.1, acc.2.1 + 1, acc.2.2) else (r.1, acc.2.1, acc.2.2 + 1)

/-- SciRAGAgent.process_papers: fold over the batch, counting successes
and failures; no failure interrupts the iteration. -/
def process_papers (st : AgentState) (papers : List Paper) : AgentState × BatchStats :=
  let final := papers.foldl batchStep (st, 0, 0)
  (final.1, { total := papers.length, successful := final.2.1, failed := final.2.2 })

/-- Whether process_paper succeeds on a paper: the download returns and
the extracted text is nonempty. -/
def paperSucceeds (p : Paper) : Bool :=
  p.download_ok && !(p.extracted_text = "")

/-- The source-deduplication loop of SciRAGAgent.query: walk the chunk
metadata in ranked order, keep the first occurrence of each paper id that
is present in the registry, in first-seen order. -/
def collectSourcesAux (registry : List (String × PaperMeta)) :
    List ChunkMeta → List String → List PaperMeta
  | [], _ => []
  | m :: ms, seen =>
    if seen.contains m.paper_id then
      collectSourcesAux registry ms seen
    else
      match dictLookup registry m.paper_id with
      | some pm => pm :: collectSourcesAux registry ms (m.paper_id :: seen)
      | none => collectSourcesAux registry ms seen

/-- The citation list assembled by SciRAGAgent.query. -/
def collectSources (metas : List ChunkMeta) (registry : List (String × PaperMeta)) :
    List PaperMeta :=
  collectSourcesAux registry metas []

/-- First-seen-order deduplication of a list of ids. -/
def dedupFirstAux : List String → List String → List String
  | [], _ => []
  | x :: xs, seen =>
    if seen.contains x then dedupFirstAux xs seen
    else x :: dedupFirstAux xs (x :: seen)

/-- First occurrence of each distinct id, in order. -/
def dedupFirst (l : List String) : List String :=
  dedupFirstAux l []

end SciRAG

namespace SciRAG

theorem process_paper_flag (st : AgentState) (p : Paper) :
    (process_paper st p).2 = paperSucceeds p := by
  unfold process_paper process_pdf paperSucceeds
  by_cases hd : p.download_ok = false
  · simp [hd]
  · have hd1 : p.download_ok = true := by
      revert hd
      cases p.download_ok <;> simp
    by_cases he : p.extracted_text = ""
    · simp [hd1, he]
    · simp [hd1, he]

theorem batch_counts :
    ∀ (papers : List Paper) (st : AgentState) (s f : Nat),
      (papers.foldl batchStep (st, s, f)).2.1
          = s + papers.countP (fun p => paperSucceeds p) ∧
      (papers.foldl batchStep (st, s, f)).2.2
          = f + papers.countP (fun p => !(paperSucceeds p)) := by
  intro papers
  induction papers with
  | nil => intro st s f; simp
  | cons p ps ih =>
    intro st s f
    rw [List.foldl_cons]
    by_cases hp : paperSucceeds p = true
    · have hstep : batchStep (st, s, f) p = ((process_paper st p).1, s + 1, f) := by
        simp [batchStep, process_paper_flag, hp]
      rw [hstep]
      have := ih (process_paper st p).1 (s + 1) f
      constructor
      · rw [this.1, List.countP_cons]
        simp [hp]
        omega
      · rw [this.2, List.countP_cons]
        simp [hp]
    · have hp2 : paperSucceeds p = false := by
        revert hp
        cases paperSucceeds p <;> simp
      have hstep : batchStep (st, s, f) p = ((process_paper st p).1, s, f + 1) := by
        simp [batchStep, process_paper_flag, hp2]
      rw [hstep]
      have := ih (process_paper st p).1 s (f + 1)
      constructor
      · rw [this.1, List.countP_cons]
        simp [hp2]
      · rw [this.2, List.countP_cons]
        simp [hp2]
        omega

/-- C8: if exactly one paper of the batch fails (download raised or
extraction yielded empty text), process_papers still processes every
sibling and reports total = N, successful = N - 1, failed = 1. -/
theorem countP_succeeds_total (papers : List Paper) :
    papers.countP (fun p => paperSucceeds p)
        + papers.countP (fun p => !(paperSucceeds p)) = papers.length := by
  induction papers with
  | nil => simp
  | cons p ps ih =>
    rw [List.countP_cons, List.countP_cons]
    cases h1 : paperSucceeds p <;> simp [h1] <;> omega

theorem c8_batch_isolation (st : AgentState) (papers : List Paper)
    (h : papers.countP (fun p => !(paperSucceeds p)) = 1) :
    (process_papers st papers).2
      = { total := papers.length, successful := papers.length - 1, failed := 1 } := by
  have hs := (batch_counts papers st 0 0).1
  have hf := (batch_counts papers st 0 0).2
  have hlen := countP_succeeds_total papers
  have e1 : (papers.foldl batchStep (st, 0, 0)).2.1 = papers.length - 1 := by
    rw [hs]
    omega
  have e2 : (papers.foldl batchStep (st, 0, 0)).2.2 = 1 := by
    rw [hf, h]
  show ({ total := papers.length,
          successful := (papers.foldl batchStep (st, 0, 0)).2.1,
          failed := (papers.foldl batchStep (st, 0, 0)).2.2 } : BatchStats) = _
  rw [e1, e2]

/-- Sample metadata for concrete scenarios. -/
def metaA : PaperMeta :=
  { paper_id := "2401.0001", title := "Paper A", authors := ["Ada", "Bob"],
    published := "2024-01-01", url := "arxiv/2401.0001",
    pdf_url := "arxiv/2401.0001.pdf", summary := "s", categories := ["cs.AI"] }

/-- Sample metadata for concrete scenarios. -/
def metaB : PaperMeta :=
  { paper_id := "2401.0002", title := "Paper B", authors := ["Cyd"],
    published := "2024-01-02", url := "arxiv/2401.0002",
    pdf_url := "arxiv/2401.0002.pdf", summary := "s", categories := ["cs.AI"] }

/-- A paper whose ingestion succeeds (nonempty extracted text). -/
def paperOkA : Paper :=
  { meta := metaA, download_ok := true, extracted_text := wText }

/-- A second succeeding paper. -/
def paperOkB : Paper :=
  { meta := metaB, download_ok := true, extracted_text := wText }

/-- A paper whose extraction yields empty text (ingestion failure). -/
def paperBad : Paper :=
  { meta := { metaB with paper_id := "2401.0003" }, download_ok := true,
    extracted_text := "" }

/-- The empty agent state. -/
def emptyState : AgentState :=
  { store := [], papers_metadata := [] }

/-- C8 witness: a batch of 3 papers with exactly one extraction failure
reports total 3, successful 2, failed 1. -/
theorem c8_batch_isolation_witness :
    (process_papers emptyState [paperOkA, paperBad, paperOkB]).2
      = { total := 3, successful := 2, failed := 1 } :=
  c8_batch_isolation emptyState [paperOkA, paperBad, paperOkB] (by decide)

end SciRAG

namespace SciRAG

theorem storeIds_upsertOne (store : List StoreRecord) (r : StoreRecord) :
    storeIds (upsertOne store r)
      = if r.id ∈ storeIds store then storeIds store else storeIds store ++ [r.id] := by
  unfold upsertOne storeIds
  by_cases h : store.any (fun x => x.id = r.id) = true
  · have hm : r.id ∈ store.map (fun x => x.id) := by
      simp only [List.any_eq_true, decide_eq_true_eq] at h
      obtain ⟨x, hx, he⟩ := h
      exact List.mem_map.mpr ⟨x, hx, he⟩
    rw [if_pos h, if_pos hm, List.map_map]
    apply List.map_congr_left
    intro x _
    by_cases hx : x.id = r.id
    · simp [hx]
    · simp [hx]
  · have hm : r.id ∉ store.map (fun x => x.id) := by
      intro hmem
      obtain ⟨x, hx, he⟩ := List.mem_map.mp hmem
      exact h (List.any_eq_true.mpr ⟨x, hx, by simp [he]⟩)
    rw [if_neg h, if_neg hm, List.map_append]
    rfl

theorem mem_storeIds_upsertOne (store : List StoreRecord) (r : StoreRecord)
    (a : String) (h : a ∈ storeIds store) : a ∈ storeIds (upsertOne store r) := by
  rw [storeIds_upsertOne]
  by_cases hm : r.id ∈ storeIds store
  · rw [if_pos hm]
    exact h
  · rw [if_neg hm]
    exact List.mem_append_left _ h

theorem mem_storeIds_foldl (rs : List StoreRecord) :
    ∀ (store : List StoreRecord) (a : String), a ∈ storeIds store →
      a ∈ storeIds (rs.foldl upsertOne store) := by
  induction rs with
  | nil => intro store a h; exact h
  | cons r rs ih =>
    intro store a h
    rw [List.foldl_cons]
    exact ih _ a (mem_storeIds_upsertOne store r a h)

theorem id_mem_storeIds_foldl (rs : List StoreRecord) :
    ∀ (store : List StoreRecord) (r : StoreRecord), r ∈ rs →
      r.id ∈ storeIds (rs.foldl upsertOne store) := by
  induction rs with
  | nil => intro store r h; cases h
  | cons r0 rs ih =>
    intro store r h
    rw [List.foldl_cons]
    rcases List.mem_cons.mp h with h0 | h1
    · subst h0
      apply mem_storeIds_foldl
      rw [storeIds_upsertOne]
      by_cases hm : r.id ∈ storeIds store
      · rw [if_pos hm]
        exact hm
      · rw [if_neg hm]
        exact List.mem_append_right _ (List.mem_singleton.mpr rfl)
    · exact ih _ r h1

theorem storeIds_foldl_of_present (rs : List StoreRecord) :
    ∀ (store : List StoreRecord), (∀ r ∈ rs, r.id ∈ storeIds store) →
      storeIds (rs.foldl upsertOne store) = storeIds store := by
  induction rs with
  | nil => intro store _; rfl
  | cons r0 rs ih =>
    intro store h
    rw [List.foldl_cons]
    have h0 : storeIds (upsertOne store r0) = storeIds store := by
      rw [storeIds_upsertOne, if_pos (h r0 (List.mem_cons_self r0 rs))]
    rw [ih (upsertOne store r0) (fun r hr => by
      rw [h0]
      exact h r (List.mem_cons_of_mem r0 hr)), h0]

/-- C9: re-ingesting the same unchanged paper derives the same chunk ids
(they are a pure function of the paper id and the chunk index), the add
overwrites rather than duplicates, and the set of store ids and the store
count after the second ingestion equal those after the first. -/
theorem c9_idempotent_ingestion (st : AgentState) (p : Paper)
    (h : paperSucceeds p = true) :
    (process_paper st p).2 = true ∧
    (process_paper (process_paper st p).1 p).2 = true ∧
    storeIds (process_paper (process_paper st p).1 p).1.store
      = storeIds (process_paper st p).1.store ∧
    (process_paper (process_paper st p).1 p).1.store.length
      = (process_paper st p).1.store.length := by
  have hf1 : (process_paper st p).2 = true := by rw [process_paper_flag]; exact h
  have hf2 : (process_paper (process_paper st p).1 p).2 = true := by
    rw [process_paper_flag]; exact h
  refine ⟨hf1, hf2, ?_⟩
  have hd : p.download_ok = true := by
    unfold paperSucceeds at h
    exact (Bool.and_eq_true _ _).mp h |>.1
  have he : (p.extracted_text = "") = False := by
    unfold paperSucceeds at h
    have := (Bool.and_eq_true _ _).mp h |>.2
    simp at this
    simp [this]
  have hpp : ∀ st0 : AgentState, process_paper st0 p =
      ({ store := (recordsOf (chunksOfDefault p.extracted_text)
            (chunkMetas p.meta (chunksOfDefault p.extracted_text).length)
            (chunkIds p.meta.paper_id (chunksOfDefault p.extracted_text).length)).foldl
              upsertOne st0.store,
         papers_metadata := dictInsert st0.papers_metadata p.meta.paper_id p.meta }, true) := by
    intro st0
    unfold process_paper process_pdf add_documents
    simp [hd, he]
  have hids : storeIds (process_paper (process_paper st p).1 p).1.store
      = storeIds (process_paper st p).1.store := by
    rw [hpp st, hpp]
    apply storeIds_foldl_of_present
    intro r hr
    exact id_mem_storeIds_foldl _ st.store r hr
  refine ⟨hids, ?_⟩
  have : ∀ s : List StoreRecord, s.length = (storeIds s).length := by
    intro s
    unfold storeIds
    rw [List.length_map]
  rw [this, this, hids]

/-- C9 witness: ingesting the sample paper twice from the empty state
succeeds both times and leaves the store ids and the store count of the
first ingestion unchanged. -/
theorem c9_idempotent_ingestion_witness :
    (process_paper emptyState paperOkA).2 = true ∧
    (process_paper (process_paper emptyState paperOkA).1 paperOkA).2 = true ∧
    storeIds (process_paper (process_paper emptyState paperOkA).1 paperOkA).1.store
      = storeIds (process_paper emptyState paperOkA).1.store ∧
    (process_paper (process_paper emptyState paperOkA).1 paperOkA).1.store.length
      = (process_paper emptyState paperOkA).1.store.length :=
  c9_idempotent_ingestion emptyState paperOkA (by decide)

end SciRAG

namespace SciRAG

theorem collectSourcesAux_spec (registry : List (String × PaperMeta)) :
    ∀ (metas : List ChunkMeta) (seen : List String),
      (∀ m ∈ metas, (dictLookup registry m.paper_id).isSome = true) →
      collectSourcesAux registry metas seen
        = (dedupFirstAux (metas.map (fun m => m.paper_id)) seen).filterMap
            (fun pid => dictLookup registry pid) := by
  intro metas
  induction metas with
  | nil => intro seen _; rfl
  | cons m ms ih =>
    intro seen h
    by_cases hs : seen.contains m.paper_id
    · rw [collectSourcesAux, if_pos hs, List.map_cons, dedupFirstAux, if_pos hs]
      exact ih seen (fun x hx => h x (List.mem_cons_of_mem m hx))
    · obtain ⟨pm, hpm⟩ := Option.isSome_iff_exists.mp (h m (List.mem_cons_self m ms))
      rw [collectSourcesAux, if_neg hs, hpm]
      show pm :: collectSourcesAux registry ms (m.paper_id :: seen) = _
      rw [List.map_cons, dedupFirstAux, if_neg hs]
      simp only [List.filterMap_cons, hpm]
      rw [ih (m.paper_id :: seen) (fun x hx => h x (List.mem_cons_of_mem m hx))]

/-- C10: when every retrieved chunk's paper id is present in the metadata
registry, the citation list assembled by the query orchestrator is exactly
the registry entry of the first occurrence of each distinct paper id, in
first-seen (ranked) order. -/
theorem c10_source_dedup (registry : List (String × PaperMeta))
    (metas : List ChunkMeta)
    (h : ∀ m ∈ metas, (dictLookup registry m.paper_id).isSome = true) :
    collectSources metas registry
      = (dedupFirst (metas.map (fun m => m.paper_id))).filterMap
          (fun pid => dictLookup registry pid) :=
  collectSourcesAux_spec registry metas [] h

/-- A retrieved chunk metadata row for paper A. -/
def cmA : ChunkMeta :=
  { paper_id := "2401.0001", title := "Paper A", chunk_index := 0, authors := "Ada, Bob" }

/-- A retrieved chunk metadata row for paper B. -/
def cmB : ChunkMeta :=
  { paper_id := "2401.0002", title := "Paper B", chunk_index := 1, authors := "Cyd" }

/-- A second retrieved chunk of paper A (different chunk index). -/
def cmA2 : ChunkMeta :=
  { paper_id := "2401.0001", title := "Paper A", chunk_index := 2, authors := "Ada, Bob" }

/-- A two-entry registry holding papers A and B. -/
def regAB : List (String × PaperMeta) :=
  [("2401.0001", metaA), ("2401.0002", metaB)]

/-- C10 witness: for retrieval metadata [A, B, A] the source list is
exactly [A, B] in that order. -/
theorem c10_source_dedup_witness :
    collectSources [cmA, cmB, cmA2] regAB = [metaA, metaB] := by
  have h := c10_source_dedup regAB [cmA, cmB, cmA2] (by decide)
  rw [h]
  decide

end SciRAG

namespace SciRAG

/-- The guardrail warning attached to a query response (type and
severity; input blocks carry severity error, output flags severity
warning). -/
structure GuardrailWarning where
  kind : String
  severity : String
deriving DecidableEq, Repr

/-- The QueryResponse shape returned by the query route. -/
structure QueryResponse where
  success : Bool
  answer : String
  sources : List PaperMeta
  message : Option String
  guardrail_warning : Option GuardrailWarning
deriving DecidableEq, Repr

/-- The result dict of SciRAGAgent.query. -/
structure AgentResult where
  answer : String
  sources : List PaperMeta
  success : Bool
deriving DecidableEq, Repr

/-- The environment a single query runs against: whether a server api key
is configured, the store count, the ranked retrieval results (documents
and metadata, as both the agent and the route retrieve them), the
metadata registry, and the generation provider modelled as a function
from prompt to answer. -/
structure QueryEnv where
  has_api_key : Bool
  chunks_indexed : Nat
  retrieved_docs : List String
  retrieved_metas : List ChunkMeta
  registry : List (String × PaperMeta)
  gen : String → String

/-- The fixed instructional prompt of SciRAGAgent._generate_response:
each retrieved chunk prefixed with its source title, then the question,
inside the instruction template. -/
def buildPrompt (question : String) (docs : List String) (metas : List ChunkMeta) : String :=
  let context := String.intercalate "\n\n"
    ((docs.zip metas).map (fun p => "[From: " ++ p.2.title ++ "]\n" ++ p.1))
  "You are a helpful scientific research assistant. You have access to content from relevant research papers.\n\nBased on the following excerpts from scientific papers, please answer the user question. Be specific and cite which paper you are referencing when possible.\n\nResearch Paper Excerpts:\n"
    ++ context ++ "\n\nUser Question: " ++ question
    ++ "\n\nPlease provide a clear, well-structured answer based on the papers above. If the papers do not contain enough information to fully answer the question, acknowledge this."

/-- SciRAGAgent.query: returns the agent result together with the number
of calls made to the generation provider. -/
def agent_query (env : QueryEnv) (question : String) : AgentResult × Nat :=
  if env.retrieved_docs.isEmpty then
    ({ answer := "I could not find any relevant information in the indexed papers.",
       sources := [], success := false }, 0)
  else
    ({ answer := env.gen (buildPrompt question env.retrieved_docs env.retrieved_metas),
       sources := collectSources env.retrieved_metas env.registry,
       success := true }, 1)

/-- The query route query_papers (default-agent path): input guardrail
first (blocking), then the api-key and store checks, then the agent query,
then the output guardrail on the produced answer (advisory, severity
warning).  The second component counts generation-provider calls. -/
def query_papers (env : QueryEnv) (question : String) : QueryResponse × Nat :=
  match check_input question with
  | some kind =>
    ({ success := false, answer := "", sources := [],
       message := some "Your request was blocked for safety reasons.",
       guardrail_warning := some { kind := kind, severity := "error" } }, 0)
  | none =>
    if env.has_api_key = false then
      ({ success := false, answer := "", sources := [],
         message := some "No API key provided.", guardrail_warning := none }, 0)
    else if env.chunks_indexed = 0 then
      ({ success := false, answer := "", sources := [],
         message := some "No papers have been processed yet.",
         guardrail_warning := none }, 0)
    else
      let r := agent_query env question
      let outVerdict := check_output r.1.answer env.retrieved_docs question
      let warning := outVerdict.map (fun k =>
        ({ kind := k, severity := "warning" } : GuardrailWarning))
      if r.1.success = false then
        ({ success := false, answer := r.1.answer, sources := [],
           message := some "Could not find relevant information in indexed papers",
           guardrail_warning := none }, r.2)
      else
        ({ success := true, answer := r.1.answer, sources := r.1.sources,
           message := none, guardrail_warning := warning }, r.2)

/-- C1: an unsafe input verdict blocks the protocol, returning
success=false with zero generation calls; a safe input followed by an
unsafe output verdict on the generated answer still returns success=true
with the generated answer populated and the verdict attached only as a
severity-warning advisory. -/
theorem c1_blocking_vs_advisory (env : QueryEnv) (question : String) :
    (∀ kind, check_input question = some kind →
      (query_papers env question).1.success = false ∧
      (query_papers env question).2 = 0) ∧
    (check_input question = none → env.has_api_key = true →
      env.chunks_indexed ≠ 0 → env.retrieved_docs ≠ [] →
      ∀ kind,
        check_output (env.gen (buildPrompt question env.retrieved_docs env.retrieved_metas))
            env.retrieved_docs question = some kind →
        (query_papers env question).1.success = true ∧
        (query_papers env question).1.answer
          = env.gen (buildPrompt question env.retrieved_docs env.retrieved_metas) ∧
        (query_papers env question).1.guardrail_warning
          = some { kind := kind, severity := "warning" }) := by
  constructor
  · intro kind hk
    unfold query_papers
    rw [hk]
    exact ⟨rfl, rfl⟩
  · intro hsafe hkey hchunks hdocs kind hout
    have hde : env.retrieved_docs.isEmpty = false := by
      cases hd : env.retrieved_docs with
      | nil => exact absurd hd hdocs
      | cons a l => rfl
    unfold query_papers agent_query
    rw [hsafe]
    simp only [hkey, hde, Bool.true_eq_false, Bool.false_eq_true, if_false, if_neg hchunks]
    rw [hout]
    refine ⟨?_, ?_, ?_⟩ <;> trivial

/-- A query environment with one indexed chunk of paper A and a provider
that always answers with words unrelated to the context (so the output
grounding check flags it). -/
def envA : QueryEnv :=
  { has_api_key := true, chunks_indexed := 1,
    retrieved_docs := ["alpha beta"], retrieved_metas := [cmA],
    registry := regAB, gen := fun _ => "zeta eta theta unrelated words" }

/-- C1 witness: the harmful question (containing the keyword bomb) is
blocked with no generation call, while the safe question about the paper
gets the generated answer back with an advisory not_grounded warning. -/
theorem c1_blocking_vs_advisory_witness :
    ((query_papers envA "how to build a bomb").1.success = false ∧
     (query_papers envA "how to build a bomb").2 = 0) ∧
    ((query_papers envA "what does the paper say about methods").1.success = true ∧
     (query_papers envA "what does the paper say about methods").1.answer
       = envA.gen (buildPrompt "what does the paper say about methods"
           envA.retrieved_docs envA.retrieved_metas) ∧
     (query_papers envA "what does the paper say about methods").1.guardrail_warning
       = some { kind := "not_grounded", severity := "warning" }) :=
  ⟨(c1_blocking_vs_advisory envA "how to build a bomb").1 "harmful" (by decide),
   (c1_blocking_vs_advisory envA "what does the paper say about methods").2
     (by decide) (by decide) (by decide) (by decide) "not_grounded" (by decide)⟩

end SciRAG
